import Mathlib

/-!
# R-Car Display Unit DRM driver (rcar_du_drv.c)

A shallow embedding of `drivers/gpu/drm/rcar-du/rcar_du_drv.c`: the variant
descriptor table, the product-register probe inside `rcar_du_load`, the load
and unload lifecycle, and the suspend / resume sequencer.

Conventions.
* C preprocessor conditionals are embedded as a `Config` record of booleans.
* Bitmasks (`unsigned int`) are natural numbers; the only operations used on
  them are `|`, `&` and `<<` on values that stay far below `2^32`.
* Calls into other compilation units are recorded, in program order, in a
  log of call events; their results are read from an environment record.
-/

namespace RcarDu

/-! ## Build configuration and constants of absent headers -/

/-- Preprocessor symbols tested by rcar_du_drv.c. -/
structure Config where
  /-- Symbol `R8A7790_ES1_DU_LVDS_LANE_MISCONNECTION_WORKAROUND` is defined. -/
  R8A7790_ES1_DU_LVDS_LANE_MISCONNECTION_WORKAROUND : Bool
  /-- Symbol `R8A779X_ES2_DU_LVDS_CH_DATA_GAP_WORKAROUND` is defined. -/
  R8A779X_ES2_DU_LVDS_CH_DATA_GAP_WORKAROUND : Bool
  /-- Either `CONFIG_DRM_ADV7511` or `CONFIG_DRM_ADV7511_MODULE` is defined. -/
  CONFIG_DRM_ADV7511 : Bool
  /-- Symbol `CONFIG_DRM_RCAR_LVDS` is defined. -/
  CONFIG_DRM_RCAR_LVDS : Bool
deriving DecidableEq, Repr

/-- The guard `defined(..LANE_MISCONNECTION..) || defined(..CH_DATA_GAP..)`
used at lines 36, 74, 98, 330, 354 and 404. -/
def Config.any_workaround (cfg : Config) : Bool :=
  cfg.R8A7790_ES1_DU_LVDS_LANE_MISCONNECTION_WORKAROUND ||
    cfg.R8A779X_ES2_DU_LVDS_CH_DATA_GAP_WORKAROUND

/-- Feature and quirk bit constants. They are declared in `rcar_du_drv.h`,
which is not among the sources, so their numeric values are parameters. -/
structure HeaderConsts where
  RCAR_DU_FEATURE_CRTC_IRQ_CLOCK : Nat
  RCAR_DU_FEATURE_DEFR8 : Nat
  RCAR_DU_FEATURE_NO_LVDS_INTERFACE : Nat
  RCAR_DU_FEATURE_VSP1_SOURCE : Nat
  RCAR_DU_QUIRK_ALIGN_128B : Nat
  RCAR_DU_QUIRK_LVDS_LANES : Nat
  RCAR_DU_QUIRK_LVDS_CH_DATA_GAP : Nat
deriving DecidableEq, Repr

/-- Output identifiers used as designators in the `routes` arrays
(`enum rcar_du_output`, declared in an absent header; kept symbolic). -/
inductive rcar_du_output where
  | RCAR_DU_OUTPUT_DPAD0
  | RCAR_DU_OUTPUT_DPAD1
  | RCAR_DU_OUTPUT_LVDS0
  | RCAR_DU_OUTPUT_LVDS1
deriving DecidableEq, Repr

/-- Encoder kinds named in this file. The `DRM_MODE_ENCODER_*` and
`RCAR_DU_ENCODER_HDMI` constants come from absent headers; they are kept
symbolic, one constructor per name that the source writes. -/
inductive EncoderType where
  | DRM_MODE_ENCODER_NONE
  | DRM_MODE_ENCODER_DAC
  | DRM_MODE_ENCODER_TMDS
  | DRM_MODE_ENCODER_LVDS
  | RCAR_DU_ENCODER_HDMI
deriving DecidableEq, Repr

/-- The kernel helper `BIT(n)`, that is `1UL << n`. -/
def BIT (n : Nat) : Nat := 1 <<< n

/-- Line 39. -/
def PRODUCT_CUT_MASK : Nat := 0x00007FF0
/-- Line 40. -/
def PRODUCT_H2_BIT : Nat := 0x45 <<< 8
/-- Line 41. -/
def PRODUCT_M2_BIT : Nat := 0x47 <<< 8
/-- Line 42. -/
def CUT_ES2X_BIT : Nat := 0x00000010

/-- Error number `ENODEV` of errno-base.h. -/
def ENODEV : Int := 19
/-- Error number `ENOMEM` of errno-base.h. -/
def ENOMEM : Int := 12

/-! ## Variant descriptor table -/

/-- One element of a `routes` array (`struct rcar_du_output_routing`). -/
structure rcar_du_output_routing where
  possible_crtcs : Nat
  possible_clones : Nat
  encoder_type : EncoderType
deriving DecidableEq, Repr

/-- Fields of `struct rcar_du_device_info` that rcar_du_drv.c names. The
`routes` array is kept as the list of its designated initialisers, in source
order: these are the populated routes; every other array slot is all-zero.
A field without an initialiser is zero. -/
structure rcar_du_device_info where
  features : Nat
  quirks : Nat
  num_crtcs : Nat
  routes : List (rcar_du_output × rcar_du_output_routing)
  num_lvds : Nat
  drgbs_bit : Nat
  max_xres : Nat
  max_yres : Nat
  interlace : Bool
  lvds0_crtc : Nat
  lvds1_crtc : Nat
  vspd_crtc : Nat
  cpu_clk_time_ps : Nat
deriving DecidableEq, Repr

open rcar_du_output EncoderType

/-- Lines 330-352. -/
def rcar_du_r8a7779_info : rcar_du_device_info :=
  { features := 0
    quirks := 0
    num_crtcs := 2
    routes :=
      [ (RCAR_DU_OUTPUT_DPAD0,
          { possible_crtcs := BIT 0
            possible_clones := 0
            encoder_type := DRM_MODE_ENCODER_NONE }),
        (RCAR_DU_OUTPUT_DPAD1,
          { possible_crtcs := BIT 1 ||| BIT 0
            possible_clones := 0
            encoder_type := DRM_MODE_ENCODER_NONE }) ]
    num_lvds := 0
    drgbs_bit := 0
    max_xres := 0
    max_yres := 0
    interlace := false
    lvds0_crtc := 0
    lvds1_crtc := 0
    vspd_crtc := 0
    cpu_clk_time_ps := 0 }

/-- Lines 354-402. -/
def rcar_du_r8a7790_info (k : HeaderConsts) (cfg : Config) : rcar_du_device_info :=
  { features := k.RCAR_DU_FEATURE_CRTC_IRQ_CLOCK ||| k.RCAR_DU_FEATURE_DEFR8 |||
      k.RCAR_DU_FEATURE_VSP1_SOURCE
    quirks := k.RCAR_DU_QUIRK_ALIGN_128B
    num_crtcs := 3
    routes :=
      [ (RCAR_DU_OUTPUT_DPAD0,
          if cfg.CONFIG_DRM_ADV7511 then
            { possible_crtcs := BIT 2 ||| BIT 1
              possible_clones := BIT 1
              encoder_type := DRM_MODE_ENCODER_NONE }
          else
            { possible_crtcs := BIT 2 ||| BIT 1 ||| BIT 0
              possible_clones := 0
              encoder_type := DRM_MODE_ENCODER_NONE }),
        (RCAR_DU_OUTPUT_LVDS0,
          { possible_crtcs := BIT 0
            possible_clones := 0
            encoder_type := DRM_MODE_ENCODER_LVDS }),
        (RCAR_DU_OUTPUT_LVDS1,
          if cfg.CONFIG_DRM_ADV7511 then
            { possible_crtcs := BIT 2 ||| BIT 1
              possible_clones := BIT 2
              encoder_type := DRM_MODE_ENCODER_LVDS }
          else
            { possible_crtcs := BIT 2 ||| BIT 1
              possible_clones := BIT 0
              encoder_type := DRM_MODE_ENCODER_LVDS }) ]
    num_lvds := 2
    drgbs_bit := 0
    max_xres := 1920
    max_yres := 1080
    interlace := false
    lvds0_crtc := BIT 0
    lvds1_crtc := BIT 1 ||| BIT 2
    vspd_crtc := BIT 0 ||| BIT 1
    cpu_clk_time_ps := 0 }

/-- Lines 404-437. -/
def rcar_du_r8a7791_info (k : HeaderConsts) : rcar_du_device_info :=
  { features := k.RCAR_DU_FEATURE_CRTC_IRQ_CLOCK ||| k.RCAR_DU_FEATURE_DEFR8 |||
      k.RCAR_DU_FEATURE_NO_LVDS_INTERFACE ||| k.RCAR_DU_FEATURE_VSP1_SOURCE
    quirks := 0
    num_crtcs := 2
    routes :=
      [ (RCAR_DU_OUTPUT_LVDS0,
          { possible_crtcs := BIT 0
            possible_clones := 0
            encoder_type := DRM_MODE_ENCODER_LVDS }),
        (RCAR_DU_OUTPUT_DPAD0,
          { possible_crtcs := BIT 1
            possible_clones := 0
            encoder_type := DRM_MODE_ENCODER_NONE }) ]
    num_lvds := 1
    drgbs_bit := 1
    max_xres := 1920
    max_yres := 1080
    interlace := true
    lvds0_crtc := BIT 0
    lvds1_crtc := 0
    vspd_crtc := BIT 0 ||| BIT 1
    cpu_clk_time_ps := 0 }

/-- Lines 439-476. -/
def rcar_du_r8a7794_info (k : HeaderConsts) (cfg : Config) : rcar_du_device_info :=
  { features := k.RCAR_DU_FEATURE_CRTC_IRQ_CLOCK ||| k.RCAR_DU_FEATURE_DEFR8 |||
      k.RCAR_DU_FEATURE_NO_LVDS_INTERFACE ||| k.RCAR_DU_FEATURE_VSP1_SOURCE
    quirks := 0
    num_crtcs := 2
    routes :=
      [ (if cfg.CONFIG_DRM_ADV7511 then
          (RCAR_DU_OUTPUT_DPAD0,
            { possible_crtcs := BIT 0
              possible_clones := 0
              encoder_type := RCAR_DU_ENCODER_HDMI })
         else
          (RCAR_DU_OUTPUT_LVDS0,
            { possible_crtcs := BIT 0
              possible_clones := 0
              encoder_type := DRM_MODE_ENCODER_LVDS })),
        (RCAR_DU_OUTPUT_DPAD1,
          { possible_crtcs := BIT 1
            possible_clones := 0
            encoder_type := DRM_MODE_ENCODER_DAC }) ]
    num_lvds := 0
    drgbs_bit := 1
    max_xres := 1920
    max_yres := 1080
    interlace := true
    lvds0_crtc := 0
    lvds1_crtc := 0
    vspd_crtc := BIT 0
    cpu_clk_time_ps := 0 }

/-- Address of one of the four file-scope descriptor records: the value
stored in the `driver_data` member of an id-table entry. -/
inductive InfoPtr where
  | r8a7779
  | r8a7790
  | r8a7791
  | r8a7794
deriving DecidableEq, Repr

/-- Lines 478-484: the id table, without its terminating empty entry. -/
def rcar_du_id_table : List (String × InfoPtr) :=
  [ ("rcar-du-r8a7779", InfoPtr.r8a7779),
    ("rcar-du-r8a7790", InfoPtr.r8a7790),
    ("rcar-du-r8a7791", InfoPtr.r8a7791),
    ("rcar-du-r8a7794", InfoPtr.r8a7794) ]

/-- Contents of the four file-scope descriptor records. They are
variables of the translation unit, so the embedding carries them as state. -/
structure Globals where
  r8a7779_info : rcar_du_device_info
  r8a7790_info : rcar_du_device_info
  r8a7791_info : rcar_du_device_info
  r8a7794_info : rcar_du_device_info
deriving DecidableEq, Repr

/-- The records as their static initialisers leave them. -/
def Globals.initial (k : HeaderConsts) (cfg : Config) : Globals :=
  { r8a7779_info := rcar_du_r8a7779_info
    r8a7790_info := rcar_du_r8a7790_info k cfg
    r8a7791_info := rcar_du_r8a7791_info k
    r8a7794_info := rcar_du_r8a7794_info k cfg }

/-- Dereference of a descriptor pointer. -/
def Globals.read (g : Globals) : InfoPtr → rcar_du_device_info
  | InfoPtr.r8a7779 => g.r8a7779_info
  | InfoPtr.r8a7790 => g.r8a7790_info
  | InfoPtr.r8a7791 => g.r8a7791_info
  | InfoPtr.r8a7794 => g.r8a7794_info

/-- Store through a descriptor pointer. -/
def Globals.write (g : Globals) (p : InfoPtr) (v : rcar_du_device_info) : Globals :=
  match p with
  | InfoPtr.r8a7779 => { g with r8a7779_info := v }
  | InfoPtr.r8a7790 => { g with r8a7790_info := v }
  | InfoPtr.r8a7791 => { g with r8a7791_info := v }
  | InfoPtr.r8a7794 => { g with r8a7794_info := v }

/-- Whether the record behind a pointer is declared with the `const`
qualifier (lines 330-335, 354-359, 404-409 and 439-443). The r8a7794 record
tests only the lane workaround symbol. -/
def info_is_const (cfg : Config) : InfoPtr → Bool
  | InfoPtr.r8a7794 => !cfg.R8A7790_ES1_DU_LVDS_LANE_MISCONNECTION_WORKAROUND
  | _ => !cfg.any_workaround

/-- Number of populated routes of a record whose encoder kind is LVDS. -/
def lvds_route_count (info : rcar_du_device_info) : Nat :=
  (info.routes.filter fun r => decide (r.2.encoder_type = DRM_MODE_ENCODER_LVDS)).length

/-! ## Product-register probe (lines 98-129) -/

/-- Line 116: `1000000000000 / 1400000000`, C integer division. -/
def cpu_clk_time_ps_h2 : Nat := 1000000000000 / 1400000000

/-- Line 122: `1000000000000 / 1500000000`, C integer division. -/
def cpu_clk_time_ps_m2 : Nat := 1000000000000 / 1500000000

/-- Lines 105-127: the statements between `ioremap_nocache` and `iounmap`,
as a function of the value `r` that `readl(product_reg)` yields and of the
record `*rcdu->info` they read and store to. Every `readl` of the read-only
product register is taken to yield the same value. -/
def rcar_du_load_probe (cfg : Config) (k : HeaderConsts) (r : Nat)
    (info : rcar_du_device_info) : rcar_du_device_info :=
  let info1 :=
    if cfg.R8A7790_ES1_DU_LVDS_LANE_MISCONNECTION_WORKAROUND then
      if (r &&& PRODUCT_CUT_MASK) = PRODUCT_H2_BIT then
        { info with quirks := info.quirks ||| k.RCAR_DU_QUIRK_LVDS_LANES }
      else info
    else info
  if cfg.R8A779X_ES2_DU_LVDS_CH_DATA_GAP_WORKAROUND then
    if (r &&& PRODUCT_CUT_MASK) = (PRODUCT_H2_BIT ||| CUT_ES2X_BIT) then
      { info1 with
        cpu_clk_time_ps := cpu_clk_time_ps_h2
        quirks := info1.quirks ||| k.RCAR_DU_QUIRK_LVDS_CH_DATA_GAP }
    else if (r &&& PRODUCT_CUT_MASK) = (PRODUCT_M2_BIT ||| CUT_ES2X_BIT) then
      { info1 with
        cpu_clk_time_ps := cpu_clk_time_ps_m2
        quirks := info1.quirks ||| k.RCAR_DU_QUIRK_LVDS_CH_DATA_GAP }
    else
      { info1 with cpu_clk_time_ps := 0 }
  else info1

/-- Whether lines 105-127 execute a store through `rcdu->info`: the lane
block stores only when its pattern matches (lines 107-109), the data-gap
block stores on each of its three paths (lines 116, 122 and 126). -/
def rcar_du_load_probe_stores (cfg : Config) (r : Nat) : Bool :=
  (cfg.R8A7790_ES1_DU_LVDS_LANE_MISCONNECTION_WORKAROUND &&
      decide ((r &&& PRODUCT_CUT_MASK) = PRODUCT_H2_BIT)) ||
    cfg.R8A779X_ES2_DU_LVDS_CH_DATA_GAP_WORKAROUND

/-! ## Load and unload (lines 48-160) -/

/-- Fields of `struct rcar_du_platform_data` that this file reads. -/
structure rcar_du_platform_data where
  /-- Member `num_crtcs`. -/
  num_crtcs : Nat
  /-- The callback pointer `backlight_off` is not NULL. -/
  backlight_off : Bool
deriving DecidableEq, Repr

/-- Fields of `struct rcar_du_device` that `rcar_du_load` and
`rcar_du_unload` touch. `devm_kzalloc` returns it zero-filled. -/
structure rcar_du_device where
  /-- Pointer `rcdu->info`: the address of a descriptor record. -/
  info : InfoPtr
  pdata : rcar_du_platform_data
  dpad0_source : Nat
  /-- Value of `rcdu->mmio` as a signed long. -/
  mmio : Int
  num_crtcs : Nat
  /-- Pointer `rcdu->fbdev` is not NULL. -/
  fbdev : Bool
deriving DecidableEq, Repr

/-- A pointer that is either NULL or the address of the device context. -/
inductive CtxPtr where
  | NULL
  | rcdu
deriving DecidableEq, Repr

/-- Mutable state seen by load and unload. -/
structure World where
  /-- The descriptor records. -/
  globals : Globals
  /-- The context object obtained from `devm_kzalloc`, once allocated. -/
  rcdu : Option rcar_du_device
  /-- Field `dev->dev_private`. -/
  dev_private : CtxPtr
  /-- Field `dev->irq_enabled`. -/
  irq_enabled : Nat
  /-- Driver data of the platform device (`platform_set_drvdata`). -/
  drvdata : CtxPtr
  /-- Number of live mappings of the product register. -/
  product_reg_maps : Nat
deriving DecidableEq, Repr

/-- Results of everything `rcar_du_load` obtains from outside this file. -/
structure LoadEnv where
  /-- Value of `pdev->dev.platform_data`; `none` stands for NULL. -/
  pdata : Option rcar_du_platform_data
  /-- Value of `pdev->id_entry->driver_data`. -/
  driver_data : InfoPtr
  /-- Call `devm_kzalloc` returns a non-NULL pointer. -/
  devm_kzalloc_ok : Bool
  /-- Call `ioremap_nocache` returns a non-NULL pointer. -/
  ioremap_nocache_ok : Bool
  /-- Value read from the product register. -/
  product_reg_value : Nat
  /-- Pointer returned by `devm_ioremap_resource`, as a signed long. -/
  devm_ioremap_resource : Int
  /-- Return value of `rcar_du_modeset_init`. -/
  rcar_du_modeset_init : Int
  /-- Value of `rcdu->num_crtcs` after `rcar_du_modeset_init`. -/
  modeset_num_crtcs : Nat
  /-- Whether `rcdu->fbdev` is set after `rcar_du_modeset_init`. -/
  modeset_fbdev : Bool
  /-- Return value of `drm_vblank_init`. -/
  drm_vblank_init : Int
deriving DecidableEq, Repr

/-- Calls made by load and unload into other compilation units. -/
inductive LoadCall where
  | devm_kzalloc
  | ioremap_nocache
  | iounmap
  | platform_get_resource
  | devm_ioremap_resource
  | rcar_du_modeset_init
  | drm_vblank_init (num_crtcs : Nat)
  | platform_set_drvdata
  | drm_fbdev_cma_fini
  | drm_kms_helper_poll_fini
  | drm_mode_config_cleanup
  | drm_vblank_cleanup
  | backlight_off
deriving DecidableEq, Repr

/-- Kernel helper `IS_ERR`: the pointer lies in the last 4095 addresses. -/
def IS_ERR (p : Int) : Bool := decide (-4095 ≤ p ∧ p ≤ -1)

/-- Lines 48-66. The result is `none` when `dev->dev_private` is NULL, where
line 52 dereferences a null pointer. -/
def rcar_du_unload (w : World) : Option (Int × World × List LoadCall) :=
  match w.dev_private, w.rcdu with
  | CtxPtr.rcdu, some rcdu =>
    let c1 := if rcdu.fbdev then [LoadCall.drm_fbdev_cma_fini] else []
    let c2 := c1 ++ [LoadCall.drm_kms_helper_poll_fini, LoadCall.drm_mode_config_cleanup,
      LoadCall.drm_vblank_cleanup]
    let w1 := { w with irq_enabled := 0, dev_private := CtxPtr.NULL }
    let c3 := if rcdu.pdata.backlight_off then c2 ++ [LoadCall.backlight_off] else c2
    some (0, w1, c3)
  | _, _ => none

/-- Lines 155-159: the code at label `done`. -/
def rcar_du_load_done (ret : Int) (w : World) (calls : List LoadCall) :
    Option (Int × World × List LoadCall) :=
  if ret ≠ 0 then
    match rcar_du_unload w with
    | some (_, w1, c) => some (ret, w1, calls ++ c)
    | none => none
  else some (ret, w, calls)

/-- Lines 131-160: from the I/O resources to the end of `rcar_du_load`. The
mask given to `drm_vblank_init` is recorded as a natural number, without the
wrap-around of the int expression `1 << n`. -/
def rcar_du_load_tail (env : LoadEnv) (rcdu : rcar_du_device) (w : World)
    (calls : List LoadCall) : Option (Int × World × List LoadCall) :=
  let calls := calls ++ [LoadCall.platform_get_resource, LoadCall.devm_ioremap_resource]
  let rcdu := { rcdu with mmio := env.devm_ioremap_resource }
  let w := { w with rcdu := some rcdu }
  if IS_ERR rcdu.mmio then some (rcdu.mmio, w, calls)
  else
    let calls := calls ++ [LoadCall.rcar_du_modeset_init]
    let rcdu := { rcdu with num_crtcs := env.modeset_num_crtcs, fbdev := env.modeset_fbdev }
    let w := { w with rcdu := some rcdu }
    let ret := env.rcar_du_modeset_init
    if ret < 0 then rcar_du_load_done ret w calls
    else
      let calls := calls ++ [LoadCall.drm_vblank_init ((1 <<< rcdu.num_crtcs) - 1)]
      let ret := env.drm_vblank_init
      if ret < 0 then rcar_du_load_done ret w calls
      else
        let w := { w with irq_enabled := 1, drvdata := CtxPtr.rcdu }
        rcar_du_load_done ret w (calls ++ [LoadCall.platform_set_drvdata])

/-- Lines 85-96: the zero-filled context after the assignments that follow
its allocation. -/
def rcar_du_load_context (env : LoadEnv) (pdata : rcar_du_platform_data) (w : World) :
    rcar_du_device :=
  { info := env.driver_data
    pdata := pdata
    dpad0_source := (w.globals.read env.driver_data).drgbs_bit
    mmio := 0
    num_crtcs := 0
    fbdev := false }

/-- Lines 68-160. The result holds the return value, the state left behind
and the calls made, in order. It is `none` when the probe stores through
`rcdu->info` into a record that is declared const (undefined behaviour: the
cast at line 93 removes the qualifier, the object keeps it), and when
`rcar_du_unload` dereferences a null pointer. -/
def rcar_du_load (cfg : Config) (k : HeaderConsts) (env : LoadEnv) (w : World) :
    Option (Int × World × List LoadCall) :=
  match env.pdata with
  | none => some (-ENODEV, w, [])
  | some pdata =>
    if !env.devm_kzalloc_ok then some (-ENOMEM, w, [LoadCall.devm_kzalloc])
    else
      let rcdu := rcar_du_load_context env pdata w
      let w := { w with rcdu := some rcdu, dev_private := CtxPtr.rcdu }
      let calls := [LoadCall.devm_kzalloc]
      if cfg.any_workaround then
        let calls := calls ++ [LoadCall.ioremap_nocache]
        if !env.ioremap_nocache_ok then some (-ENOMEM, w, calls)
        else
          let w := { w with product_reg_maps := w.product_reg_maps + 1 }
          if rcar_du_load_probe_stores cfg env.product_reg_value &&
              info_is_const cfg rcdu.info then none
          else
            let patched :=
              rcar_du_load_probe cfg k env.product_reg_value (w.globals.read rcdu.info)
            let w := { w with globals := w.globals.write rcdu.info patched }
            let w := { w with product_reg_maps := w.product_reg_maps - 1 }
            rcar_du_load_tail env rcdu w (calls ++ [LoadCall.iounmap])
      else rcar_du_load_tail env rcdu w calls

/-- State before any load: the descriptor records hold their static
initialisers and the DRM device has no private data. -/
def World.boot (k : HeaderConsts) (cfg : Config) : World :=
  { globals := Globals.initial k cfg
    rcdu := none
    dev_private := CtxPtr.NULL
    irq_enabled := 0
    drvdata := CtxPtr.NULL
    product_reg_maps := 0 }

/-- The four load stages that can fail, in program order. -/
inductive LoadStage where
  | product_register_mapping
  | device_register_mapping
  | modeset_init
  | vblank_init
deriving DecidableEq, Repr

/-- Position of a stage in program order. -/
def LoadStage.rank : LoadStage → Nat
  | product_register_mapping => 0
  | device_register_mapping => 1
  | modeset_init => 2
  | vblank_init => 3

/-- The stage that a call starts, for the four calls that start one. -/
def LoadCall.stage : LoadCall → Option LoadStage
  | ioremap_nocache => some LoadStage.product_register_mapping
  | devm_ioremap_resource => some LoadStage.device_register_mapping
  | rcar_du_modeset_init => some LoadStage.modeset_init
  | drm_vblank_init _ => some LoadStage.vblank_init
  | _ => none

/-- The calls that only `rcar_du_unload` makes. -/
def LoadCall.is_teardown : LoadCall → Bool
  | drm_fbdev_cma_fini => true
  | drm_kms_helper_poll_fini => true
  | drm_mode_config_cleanup => true
  | drm_vblank_cleanup => true
  | backlight_off => true
  | _ => false

/-- Stage `st` is reached and fails: the inputs are valid, the context is
allocated, every earlier stage succeeds and `st` reports failure. -/
def stage_fails (cfg : Config) (env : LoadEnv) (st : LoadStage) : Prop :=
  env.pdata.isSome = true ∧ env.devm_kzalloc_ok = true ∧
  match st with
  | LoadStage.product_register_mapping =>
      cfg.any_workaround = true ∧ env.ioremap_nocache_ok = false
  | LoadStage.device_register_mapping =>
      (cfg.any_workaround = true → env.ioremap_nocache_ok = true) ∧
      IS_ERR env.devm_ioremap_resource = true
  | LoadStage.modeset_init =>
      (cfg.any_workaround = true → env.ioremap_nocache_ok = true) ∧
      IS_ERR env.devm_ioremap_resource = false ∧ env.rcar_du_modeset_init < 0
  | LoadStage.vblank_init =>
      (cfg.any_workaround = true → env.ioremap_nocache_ok = true) ∧
      IS_ERR env.devm_ioremap_resource = false ∧ 0 ≤ env.rcar_du_modeset_init ∧
      env.drm_vblank_init < 0

/-! ## Power management (lines 243-308) -/

/-- The two DPMS modes that this file passes to a slave encoder. -/
inductive DpmsMode where
  | DRM_MODE_DPMS_ON
  | DRM_MODE_DPMS_OFF
deriving DecidableEq, Repr

open DpmsMode

/-- What the sequencer reads of one `struct drm_encoder`. -/
structure drm_encoder where
  encoder_type : EncoderType
  /-- The pointer `get_rcar_slave_funcs(encoder)->dpms` is not NULL. -/
  dpms : Bool
deriving DecidableEq, Repr

/-- What the sequencer reads of one `struct rcar_du_crtc`. -/
structure rcar_du_crtc where
  /-- Member `lvds_ch`, a signed int. -/
  lvds_ch : Int
deriving DecidableEq, Repr

/-- Device state read by suspend and resume. The C arrays `lvds` and `crtcs`
are total maps from the index; a pointer to an LVDS unit is `none` when NULL
and `some u` when it is the address of unit object `u`. -/
structure PmDevice where
  /-- List `rcdu->ddev->mode_config.encoder_list`, in list order. -/
  encoder_list : List drm_encoder
  /-- Value of `rcdu->info->num_lvds`. -/
  info_num_lvds : Nat
  /-- Array `rcdu->lvds`. -/
  lvds : Nat → Option Nat
  /-- Value of `rcdu->pdata->num_crtcs`. -/
  pdata_num_crtcs : Nat
  /-- Array `rcdu->crtcs`. -/
  crtcs : Nat → rcar_du_crtc

/-- Calls made by suspend and resume. An encoder is named by its position in
the encoder list and a CRTC by its index in `rcdu->crtcs`; an LVDS unit is
named by the pointer value passed. -/
inductive PmCall where
  | drm_kms_helper_poll_disable
  | drm_kms_helper_poll_enable
  | dpms (encoder : Nat) (mode : DpmsMode)
  | rcar_du_lvdsenc_stop_suspend (lvds : Option Nat)
  | rcar_du_lvdsenc_start (lvds : Option Nat) (crtc : Nat)
  | rcar_du_crtc_suspend (crtc : Nat)
  | rcar_du_crtc_resume (crtc : Nat)
deriving DecidableEq, Repr

/-- Lines 244-273, with `CONFIG_PM_SLEEP` set. The result is the return
value and the calls made, in order. -/
def rcar_du_pm_suspend (cfg : Config) (rcdu : PmDevice) : Int × List PmCall :=
  let calls := [PmCall.drm_kms_helper_poll_disable]
  let calls :=
    if cfg.CONFIG_DRM_ADV7511 then
      rcdu.encoder_list.enum.foldl
        (fun calls e =>
          if e.2.encoder_type = DRM_MODE_ENCODER_TMDS ∧ e.2.dpms = true then
            calls ++ [PmCall.dpms e.1 DRM_MODE_DPMS_OFF]
          else calls)
        calls
    else calls
  let calls :=
    if cfg.CONFIG_DRM_RCAR_LVDS then
      (List.range rcdu.info_num_lvds).foldl
        (fun calls i =>
          if (rcdu.lvds i).isSome then
            calls ++ [PmCall.rcar_du_lvdsenc_stop_suspend (rcdu.lvds i)]
          else calls)
        calls
    else calls
  let calls :=
    (List.range rcdu.pdata_num_crtcs).foldl
      (fun calls i => calls ++ [PmCall.rcar_du_crtc_suspend i]) calls
  (0, calls)

/-- Lines 275-307, with `CONFIG_PM_SLEEP` set. -/
def rcar_du_pm_resume (cfg : Config) (rcdu : PmDevice) : Int × List PmCall :=
  let calls :=
    (List.range rcdu.pdata_num_crtcs).foldl
      (fun calls i => calls ++ [PmCall.rcar_du_crtc_resume i]) []
  let calls :=
    if cfg.CONFIG_DRM_RCAR_LVDS then
      (List.range rcdu.pdata_num_crtcs).foldl
        (fun calls i =>
          if (rcdu.crtcs i).lvds_ch ≥ 0 then
            calls ++ [PmCall.rcar_du_lvdsenc_start
              (rcdu.lvds (rcdu.crtcs i).lvds_ch.toNat) i]
          else calls)
        calls
    else calls
  let calls :=
    if cfg.CONFIG_DRM_ADV7511 then
      rcdu.encoder_list.enum.foldl
        (fun calls e =>
          if e.2.encoder_type = DRM_MODE_ENCODER_TMDS ∧ e.2.dpms = true then
            calls ++ [PmCall.dpms e.1 DRM_MODE_DPMS_ON]
          else calls)
        calls
    else calls
  let calls := calls ++ [PmCall.drm_kms_helper_poll_enable]
  (0, calls)

/-- The four kinds of collaborator that the sequencer drives. -/
inductive PmStage where
  | polling
  | bridge
  | lvds
  | crtc
deriving DecidableEq, Repr

/-- The collaborator kind that a call addresses. -/
def PmCall.stage : PmCall → PmStage
  | drm_kms_helper_poll_disable => PmStage.polling
  | drm_kms_helper_poll_enable => PmStage.polling
  | dpms _ _ => PmStage.bridge
  | rcar_du_lvdsenc_stop_suspend _ => PmStage.lvds
  | rcar_du_lvdsenc_start _ _ => PmStage.lvds
  | rcar_du_crtc_suspend _ => PmStage.crtc
  | rcar_du_crtc_resume _ => PmStage.crtc

/-- Position of a collaborator kind in the suspend order of the design:
polling, bridge encoders, LVDS units, CRTCs. -/
def PmStage.suspend_rank : PmStage → Nat
  | polling => 0
  | bridge => 1
  | lvds => 2
  | crtc => 3

/-- Configuration with both workarounds, ADV7511 and LVDS support. -/
def Config.full : Config :=
  { R8A7790_ES1_DU_LVDS_LANE_MISCONNECTION_WORKAROUND := true
    R8A779X_ES2_DU_LVDS_CH_DATA_GAP_WORKAROUND := true
    CONFIG_DRM_ADV7511 := true
    CONFIG_DRM_RCAR_LVDS := true }

/-- One assignment of the header constants: consecutive single bits. The
general theorems do not depend on it; it instantiates them. -/
def HeaderConsts.sample : HeaderConsts :=
  { RCAR_DU_FEATURE_CRTC_IRQ_CLOCK := 1
    RCAR_DU_FEATURE_DEFR8 := 2
    RCAR_DU_FEATURE_NO_LVDS_INTERFACE := 4
    RCAR_DU_FEATURE_VSP1_SOURCE := 8
    RCAR_DU_QUIRK_ALIGN_128B := 1
    RCAR_DU_QUIRK_LVDS_LANES := 2
    RCAR_DU_QUIRK_LVDS_CH_DATA_GAP := 4 }

/-! ## Concrete inputs used to instantiate the theorems -/

/-- A load in which every step succeeds: r8a7790 device, product register
reading 0x4510 (H2 ES2.x). -/
def LoadEnv.sample : LoadEnv :=
  { pdata := some { num_crtcs := 3, backlight_off := true }
    driver_data := InfoPtr.r8a7790
    devm_kzalloc_ok := true
    ioremap_nocache_ok := true
    product_reg_value := 0x4510
    devm_ioremap_resource := 0x1000
    rcar_du_modeset_init := 0
    modeset_num_crtcs := 3
    modeset_fbdev := true
    drm_vblank_init := 0 }

/-- A device with one CRTC bound to LVDS channel 0, the LVDS unit of slot 0
present, and one TMDS encoder that has a dpms operation. -/
def PmDevice.sample : PmDevice :=
  { encoder_list := [{ encoder_type := DRM_MODE_ENCODER_TMDS, dpms := true }]
    info_num_lvds := 1
    lvds := fun i => if i = 0 then some 0 else none
    pdata_num_crtcs := 1
    crtcs := fun i => if i = 0 then { lvds_ch := 0 } else { lvds_ch := -1 } }

/-- A device with one LVDS slot that holds NULL and one CRTC bound to LVDS
channel 0. -/
def PmDevice.absent_slot : PmDevice :=
  { encoder_list := []
    info_num_lvds := 1
    lvds := fun _ => none
    pdata_num_crtcs := 1
    crtcs := fun i => if i = 0 then { lvds_ch := 0 } else { lvds_ch := -1 } }

/-- The data-model invariant: a bound LVDS channel of a CRTC is below the
LVDS-unit count. -/
def PmDevice.lvds_ch_in_range (rcdu : PmDevice) : Prop :=
  ∀ i, i < rcdu.pdata_num_crtcs → (rcdu.crtcs i).lvds_ch ≥ 0 →
    (rcdu.crtcs i).lvds_ch < (rcdu.info_num_lvds : Int)

/-! ## Auxiliary lemmas -/

theorem foldl_append_eq_flatMap {α β : Type} (f : α → List β) (l : List α) (init : List β) :
    l.foldl (fun acc x => acc ++ f x) init = init ++ l.flatMap f := by
  induction l generalizing init with
  | nil => simp
  | cons x xs ih => simp [List.foldl_cons, ih, List.append_assoc]

theorem foldl_cond_append {α β : Type} (p : α → Prop) [DecidablePred p] (g : α → β)
    (l : List α) (init : List β) :
    l.foldl (fun acc x => if p x then acc ++ [g x] else acc) init
      = init ++ (l.filter fun x => decide (p x)).map g := by
  induction l generalizing init with
  | nil => simp
  | cons x xs ih =>
    by_cases h : p x <;> simp [List.foldl_cons, ih, h, List.filter_cons]

theorem bits_below_of_lt_two_pow {m n : Nat} (h : m < 2 ^ n) (i : Nat)
    (hi : m.testBit i = true) : i < n := by
  by_contra hlt
  have hle : n ≤ i := Nat.le_of_not_lt hlt
  have hlt2 : m < 2 ^ i := Nat.lt_of_lt_of_le h (Nat.pow_le_pow_right (by decide) hle)
  rw [Nat.testBit_lt_two_pow hlt2] at hi
  exact Bool.noConfusion hi

theorem routes_valid_aux (info : rcar_du_device_info) (r : rcar_du_output × rcar_du_output_routing)
    (hr : r ∈ info.routes)
    (hall : ∀ x ∈ info.routes, x.2.possible_crtcs ≠ 0 ∧ x.2.possible_crtcs < 2 ^ info.num_crtcs) :
    r.2.possible_crtcs ≠ 0 ∧
      ∀ i, r.2.possible_crtcs.testBit i = true → i < info.num_crtcs :=
  ⟨(hall r hr).1, fun i hi => bits_below_of_lt_two_pow (hall r hr).2 i hi⟩

theorem initial_routes_bounded (k : HeaderConsts) (cfg : Config) (p : InfoPtr) :
    ∀ x ∈ ((Globals.initial k cfg).read p).routes,
      x.2.possible_crtcs ≠ 0 ∧
        x.2.possible_crtcs < 2 ^ ((Globals.initial k cfg).read p).num_crtcs := by
  obtain ⟨wa1, wa2, adv, lv⟩ := cfg
  cases p <;> cases adv <;>
    simp [Globals.initial, Globals.read, rcar_du_r8a7779_info, rcar_du_r8a7790_info,
      rcar_du_r8a7791_info, rcar_du_r8a7794_info, BIT]

/-! ## Claims about the descriptor table -/

/-- C1: for each of the four descriptor records (r8a7779, r8a7790, r8a7791,
r8a7794), in either ADV7511 configuration, every populated route has a
non-empty `possible_crtcs` mask and every bit set in that mask has an index
below the `num_crtcs` of the record. -/
theorem C1_routes_possible_crtcs_in_range (k : HeaderConsts) (cfg : Config) (p : InfoPtr)
    (r : rcar_du_output × rcar_du_output_routing)
    (hr : r ∈ ((Globals.initial k cfg).read p).routes) :
    r.2.possible_crtcs ≠ 0 ∧
      ∀ i, r.2.possible_crtcs.testBit i = true →
        i < ((Globals.initial k cfg).read p).num_crtcs :=
  routes_valid_aux _ r hr (initial_routes_bounded k cfg p)

/-- Instance of C1: route LVDS1 of the r8a7790 record without ADV7511. -/
theorem C1_routes_possible_crtcs_in_range_witness :
    (6 : Nat) ≠ 0 ∧ ∀ i, (6 : Nat).testBit i = true → i < 3 :=
  C1_routes_possible_crtcs_in_range HeaderConsts.sample
    { Config.full with CONFIG_DRM_ADV7511 := false } InfoPtr.r8a7790
    (RCAR_DU_OUTPUT_LVDS1,
      { possible_crtcs := 6, possible_clones := 1, encoder_type := DRM_MODE_ENCODER_LVDS })
    (by decide)

/-- Each of the four descriptor records is pointed to by an id-table entry. -/
theorem id_table_covers_records (p : InfoPtr) : p ∈ rcar_du_id_table.map Prod.snd := by
  cases p <;> decide

/-- C2, as stated, fails: the r8a7794 record built without ADV7511 has one
LVDS-kind route while its `num_lvds` is 0. -/
theorem C2_counterexample :
    ¬ (lvds_route_count
          ((Globals.initial HeaderConsts.sample
              { Config.full with CONFIG_DRM_ADV7511 := false }).read InfoPtr.r8a7794)
        ≤ ((Globals.initial HeaderConsts.sample
              { Config.full with CONFIG_DRM_ADV7511 := false }).read InfoPtr.r8a7794).num_lvds) := by
  decide

/-- C2, amended: the number of populated LVDS-kind routes is at most
`num_lvds` for every record and ADV7511 configuration other than r8a7794
without ADV7511; that record has exactly one LVDS-kind route and declares
`num_lvds = 0`. -/
theorem C2_lvds_routes_le_num_lvds_amended (k : HeaderConsts) (cfg : Config) (p : InfoPtr) :
    ((p = InfoPtr.r8a7794 → cfg.CONFIG_DRM_ADV7511 = true) →
      lvds_route_count ((Globals.initial k cfg).read p)
        ≤ ((Globals.initial k cfg).read p).num_lvds) ∧
    (p = InfoPtr.r8a7794 → cfg.CONFIG_DRM_ADV7511 = false →
      lvds_route_count ((Globals.initial k cfg).read p) = 1 ∧
        ((Globals.initial k cfg).read p).num_lvds = 0) := by
  obtain ⟨wa1, wa2, adv, lv⟩ := cfg
  cases p <;> cases adv <;>
    simp [Globals.initial, Globals.read, rcar_du_r8a7779_info, rcar_du_r8a7790_info,
      rcar_du_r8a7791_info, rcar_du_r8a7794_info, lvds_route_count]

/-- Instance of amended C2: the r8a7794 record with ADV7511, and without. -/
theorem C2_lvds_routes_le_num_lvds_amended_witness :
    lvds_route_count ((Globals.initial HeaderConsts.sample Config.full).read InfoPtr.r8a7794)
        ≤ ((Globals.initial HeaderConsts.sample Config.full).read InfoPtr.r8a7794).num_lvds ∧
    lvds_route_count
        ((Globals.initial HeaderConsts.sample
            { Config.full with CONFIG_DRM_ADV7511 := false }).read InfoPtr.r8a7794) = 1 :=
  ⟨(C2_lvds_routes_le_num_lvds_amended HeaderConsts.sample Config.full InfoPtr.r8a7794).1
      (fun _ => rfl),
   ((C2_lvds_routes_le_num_lvds_amended HeaderConsts.sample
      { Config.full with CONFIG_DRM_ADV7511 := false } InfoPtr.r8a7794).2 rfl rfl).1⟩

/-! ## Claims about the product-register probe -/

theorem or_and_of_disjoint (q l g : Nat) (h : l &&& g = 0) : (q ||| l) &&& g = q &&& g := by
  apply Nat.eq_of_testBit_eq
  intro i
  have hi : (l &&& g).testBit i = false := by rw [h]; exact Nat.zero_testBit i
  rw [Nat.testBit_and] at hi
  rw [Nat.testBit_and, Nat.testBit_and, Nat.testBit_or]
  cases hq : q.testBit i <;> cases hl : l.testBit i <;> cases hg : g.testBit i <;>
    simp_all

/-- C4: with the channel-data-gap workaround compiled in, a register value
whose masked field is the H2 ES2.x pattern makes the probe OR the
LVDS_CH_DATA_GAP quirk into the quirks and store the period
1000000000000 / 1400000000 = 714; the M2 ES2.x pattern gives the same quirk
and the period 1000000000000 / 1500000000 = 666; the two periods differ. -/
theorem C4_probe_ch_data_gap (cfg : Config) (k : HeaderConsts) (r : Nat)
    (info : rcar_du_device_info)
    (hgap : cfg.R8A779X_ES2_DU_LVDS_CH_DATA_GAP_WORKAROUND = true) :
    ((r &&& 0x7FF0) = (0x45 <<< 8 ||| 0x10) →
      (rcar_du_load_probe cfg k r info).quirks
          = info.quirks ||| k.RCAR_DU_QUIRK_LVDS_CH_DATA_GAP ∧
        (rcar_du_load_probe cfg k r info).cpu_clk_time_ps = 1000000000000 / 1400000000 ∧
        (rcar_du_load_probe cfg k r info).cpu_clk_time_ps = 714) ∧
    ((r &&& 0x7FF0) = (0x47 <<< 8 ||| 0x10) →
      (rcar_du_load_probe cfg k r info).quirks
          = info.quirks ||| k.RCAR_DU_QUIRK_LVDS_CH_DATA_GAP ∧
        (rcar_du_load_probe cfg k r info).cpu_clk_time_ps = 1000000000000 / 1500000000 ∧
        (rcar_du_load_probe cfg k r info).cpu_clk_time_ps = 666) ∧
    cpu_clk_time_ps_h2 ≠ cpu_clk_time_ps_m2 := by
  refine ⟨fun h => ?_, fun h => ?_, by decide⟩
  · cases hl : cfg.R8A7790_ES1_DU_LVDS_LANE_MISCONNECTION_WORKAROUND <;>
      simp [rcar_du_load_probe, hgap, hl, h, PRODUCT_CUT_MASK, PRODUCT_H2_BIT, PRODUCT_M2_BIT,
        CUT_ES2X_BIT, cpu_clk_time_ps_h2]
  · cases hl : cfg.R8A7790_ES1_DU_LVDS_LANE_MISCONNECTION_WORKAROUND <;>
      simp [rcar_du_load_probe, hgap, hl, h, PRODUCT_CUT_MASK, PRODUCT_H2_BIT, PRODUCT_M2_BIT,
        CUT_ES2X_BIT, cpu_clk_time_ps_m2]

/-- Instance of C4: register values 0x4510 and 0x4710 on the r8a7790 record. -/
theorem C4_probe_ch_data_gap_witness :
    (rcar_du_load_probe Config.full HeaderConsts.sample 0x4510
        (rcar_du_r8a7790_info HeaderConsts.sample Config.full)).cpu_clk_time_ps = 714 ∧
    (rcar_du_load_probe Config.full HeaderConsts.sample 0x4710
        (rcar_du_r8a7790_info HeaderConsts.sample Config.full)).cpu_clk_time_ps = 666 :=
  ⟨((C4_probe_ch_data_gap Config.full HeaderConsts.sample 0x4510
        (rcar_du_r8a7790_info HeaderConsts.sample Config.full) rfl).1 (by decide)).2.2,
   ((C4_probe_ch_data_gap Config.full HeaderConsts.sample 0x4710
        (rcar_du_r8a7790_info HeaderConsts.sample Config.full) rfl).2.1 (by decide)).2.2⟩

/-- C5: with both workarounds compiled in, a register value whose masked
field is 0x45 << 8 (H2 ES1.x) makes the probe leave the record as it was
except that the quirks are OR-ed with LVDS_LANES and the period is 0: every
bit outside LVDS_LANES keeps its value, and when LVDS_CH_DATA_GAP shares no
bit with LVDS_LANES the LVDS_CH_DATA_GAP bits of the quirks are unchanged. -/
theorem C5_probe_h2_es1_lanes_only (cfg : Config) (k : HeaderConsts) (r : Nat)
    (info : rcar_du_device_info)
    (hlane : cfg.R8A7790_ES1_DU_LVDS_LANE_MISCONNECTION_WORKAROUND = true)
    (hgap : cfg.R8A779X_ES2_DU_LVDS_CH_DATA_GAP_WORKAROUND = true)
    (hr : (r &&& 0x7FF0) = 0x45 <<< 8)
    (hdisj : k.RCAR_DU_QUIRK_LVDS_LANES &&& k.RCAR_DU_QUIRK_LVDS_CH_DATA_GAP = 0) :
    rcar_du_load_probe cfg k r info
        = { info with
            quirks := info.quirks ||| k.RCAR_DU_QUIRK_LVDS_LANES
            cpu_clk_time_ps := 0 } ∧
    (∀ i, k.RCAR_DU_QUIRK_LVDS_LANES.testBit i = true →
        (rcar_du_load_probe cfg k r info).quirks.testBit i = true) ∧
    (∀ i, k.RCAR_DU_QUIRK_LVDS_LANES.testBit i = false →
        (rcar_du_load_probe cfg k r info).quirks.testBit i = info.quirks.testBit i) ∧
    (rcar_du_load_probe cfg k r info).quirks &&& k.RCAR_DU_QUIRK_LVDS_CH_DATA_GAP
        = info.quirks &&& k.RCAR_DU_QUIRK_LVDS_CH_DATA_GAP ∧
    (rcar_du_load_probe cfg k r info).cpu_clk_time_ps = 0 := by
  have hp : rcar_du_load_probe cfg k r info
      = { info with
          quirks := info.quirks ||| k.RCAR_DU_QUIRK_LVDS_LANES
          cpu_clk_time_ps := 0 } := by
    simp [rcar_du_load_probe, hgap, hlane, hr, PRODUCT_CUT_MASK, PRODUCT_H2_BIT,
      PRODUCT_M2_BIT, CUT_ES2X_BIT]
  refine ⟨hp, ?_, ?_, ?_, ?_⟩
  · intro i hi
    simp [hp, Nat.testBit_or, hi]
  · intro i hi
    simp [hp, Nat.testBit_or, hi]
  · rw [hp]
    exact or_and_of_disjoint _ _ _ hdisj
  · rw [hp]

/-- Instance of C5: register value 0x4500 on the r8a7790 record. -/
theorem C5_probe_h2_es1_lanes_only_witness :
    (rcar_du_load_probe Config.full HeaderConsts.sample 0x4500
        (rcar_du_r8a7790_info HeaderConsts.sample Config.full)).quirks = 3 ∧
    (rcar_du_load_probe Config.full HeaderConsts.sample 0x4500
        (rcar_du_r8a7790_info HeaderConsts.sample Config.full)).cpu_clk_time_ps = 0 :=
  ⟨by
    rw [(C5_probe_h2_es1_lanes_only Config.full HeaderConsts.sample 0x4500
      (rcar_du_r8a7790_info HeaderConsts.sample Config.full) rfl rfl (by decide) (by decide)).1]
    decide,
   (C5_probe_h2_es1_lanes_only Config.full HeaderConsts.sample 0x4500
      (rcar_du_r8a7790_info HeaderConsts.sample Config.full) rfl rfl (by decide)
      (by decide)).2.2.2.2⟩

/-- C6: with both workarounds compiled in, a register value whose masked
field is none of 0x4500, 0x4510 and 0x4710 makes the probe leave the quirks
(and every other field) as they were and store the period 0. -/
theorem C6_probe_no_match (cfg : Config) (k : HeaderConsts) (r : Nat)
    (info : rcar_du_device_info)
    (hlane : cfg.R8A7790_ES1_DU_LVDS_LANE_MISCONNECTION_WORKAROUND = true)
    (hgap : cfg.R8A779X_ES2_DU_LVDS_CH_DATA_GAP_WORKAROUND = true)
    (h1 : (r &&& 0x7FF0) ≠ 0x4500) (h2 : (r &&& 0x7FF0) ≠ 0x4510)
    (h3 : (r &&& 0x7FF0) ≠ 0x4710) :
    (rcar_du_load_probe cfg k r info).quirks = info.quirks ∧
    (rcar_du_load_probe cfg k r info).cpu_clk_time_ps = 0 ∧
    rcar_du_load_probe cfg k r info = { info with cpu_clk_time_ps := 0 } := by
  have hp : rcar_du_load_probe cfg k r info = { info with cpu_clk_time_ps := 0 } := by
    simp [rcar_du_load_probe, hgap, hlane, h1, h2, h3, PRODUCT_CUT_MASK, PRODUCT_H2_BIT,
      PRODUCT_M2_BIT, CUT_ES2X_BIT]
  exact ⟨by rw [hp], by rw [hp], hp⟩

/-- Instance of C6: register value 0x4700 (M2 ES1.x) on the r8a7791 record. -/
theorem C6_probe_no_match_witness :
    (rcar_du_load_probe Config.full HeaderConsts.sample 0x4700
        (rcar_du_r8a7791_info HeaderConsts.sample)).quirks = 0 ∧
    (rcar_du_load_probe Config.full HeaderConsts.sample 0x4700
        (rcar_du_r8a7791_info HeaderConsts.sample)).cpu_clk_time_ps = 0 :=
  ⟨(C6_probe_no_match Config.full HeaderConsts.sample 0x4700
      (rcar_du_r8a7791_info HeaderConsts.sample) rfl rfl (by decide) (by decide)
      (by decide)).1,
   (C6_probe_no_match Config.full HeaderConsts.sample 0x4700
      (rcar_du_r8a7791_info HeaderConsts.sample) rfl rfl (by decide) (by decide)
      (by decide)).2.1⟩

/-! ## Claims about load and unload -/

theorem unload_spec (w : World) (c : rcar_du_device) (hp : w.dev_private = CtxPtr.rcdu)
    (hc : w.rcdu = some c) :
    ∃ calls, rcar_du_unload w
        = some (0, { w with irq_enabled := 0, dev_private := CtxPtr.NULL }, calls) ∧
      LoadCall.drm_mode_config_cleanup ∈ calls ∧ ∀ x ∈ calls, x.stage = none := by
  cases hf : c.fbdev <;> cases hb : c.pdata.backlight_off <;>
    simp [rcar_du_unload, hp, hc, hf, hb, LoadCall.stage]

theorem load_done_spec (ret : Int) (w : World) (c : rcar_du_device) (calls : List LoadCall)
    (hp : w.dev_private = CtxPtr.rcdu) (hc : w.rcdu = some c) :
    ∃ w1 calls1, rcar_du_load_done ret w calls = some (ret, w1, calls ++ calls1) ∧
      w1.globals = w.globals ∧ w1.product_reg_maps = w.product_reg_maps ∧
      w1.rcdu = w.rcdu ∧ (∀ x ∈ calls1, x.stage = none) ∧
      (ret ≠ 0 → w1.dev_private = CtxPtr.NULL ∧ w1.irq_enabled = 0 ∧
        LoadCall.drm_mode_config_cleanup ∈ calls1) ∧
      (ret = 0 → w1 = w ∧ calls1 = []) := by
  obtain ⟨cs, hu, hm, hs⟩ := unload_spec w c hp hc
  by_cases hr : ret = 0
  · exact ⟨w, [], by simp [rcar_du_load_done, hr]⟩
  · refine ⟨{ w with irq_enabled := 0, dev_private := CtxPtr.NULL }, cs, ?_, rfl, rfl, rfl, hs,
      fun _ => ⟨rfl, rfl, hm⟩, fun h => absurd h hr⟩
    simp [rcar_du_load_done, hr, hu]

theorem load_tail_frame (env : LoadEnv) (c : rcar_du_device) (w : World)
    (calls : List LoadCall) (hp : w.dev_private = CtxPtr.rcdu) :
    ∃ ret w1 calls1, rcar_du_load_tail env c w calls = some (ret, w1, calls ++ calls1) ∧
      w1.globals = w.globals ∧ w1.product_reg_maps = w.product_reg_maps ∧
      w1.rcdu.map (fun x => x.info) = some c.info := by
  unfold rcar_du_load_tail
  by_cases h1 : IS_ERR env.devm_ioremap_resource = true
  · refine ⟨env.devm_ioremap_resource,
      { w with rcdu := some { c with mmio := env.devm_ioremap_resource } },
      [LoadCall.platform_get_resource, LoadCall.devm_ioremap_resource], ?_, rfl, rfl, rfl⟩
    simp [h1]
  · by_cases h2 : env.rcar_du_modeset_init < 0
    · obtain ⟨w1, c1, hd, hg, hm, hr, -⟩ := load_done_spec env.rcar_du_modeset_init
        { w with rcdu := some { c with mmio := env.devm_ioremap_resource,
                                       num_crtcs := env.modeset_num_crtcs,
                                       fbdev := env.modeset_fbdev } } _
        (calls ++ [LoadCall.platform_get_resource, LoadCall.devm_ioremap_resource] ++
          [LoadCall.rcar_du_modeset_init]) hp rfl
      refine ⟨env.rcar_du_modeset_init, w1,
        [LoadCall.platform_get_resource, LoadCall.devm_ioremap_resource,
          LoadCall.rcar_du_modeset_init] ++ c1, ?_, hg, hm, ?_⟩
      · simpa [h1, h2] using hd
      · simp [hr]
    · by_cases h3 : env.drm_vblank_init < 0
      · obtain ⟨w1, c1, hd, hg, hm, hr, -⟩ := load_done_spec env.drm_vblank_init
          { w with rcdu := some { c with mmio := env.devm_ioremap_resource,
                                         num_crtcs := env.modeset_num_crtcs,
                                         fbdev := env.modeset_fbdev } } _
          (calls ++ [LoadCall.platform_get_resource, LoadCall.devm_ioremap_resource] ++
            [LoadCall.rcar_du_modeset_init] ++
            [LoadCall.drm_vblank_init ((1 <<< env.modeset_num_crtcs) - 1)]) hp rfl
        refine ⟨env.drm_vblank_init, w1,
          [LoadCall.platform_get_resource, LoadCall.devm_ioremap_resource,
            LoadCall.rcar_du_modeset_init,
            LoadCall.drm_vblank_init ((1 <<< env.modeset_num_crtcs) - 1)] ++ c1, ?_, hg, hm, ?_⟩
        · simpa [h1, h2, h3] using hd
        · simp [hr]
      · obtain ⟨w1, c1, hd, hg, hm, hr, -⟩ := load_done_spec env.drm_vblank_init
          { w with rcdu := some { c with mmio := env.devm_ioremap_resource,
                                         num_crtcs := env.modeset_num_crtcs,
                                         fbdev := env.modeset_fbdev },
                   irq_enabled := 1, drvdata := CtxPtr.rcdu } _
          (calls ++ [LoadCall.platform_get_resource, LoadCall.devm_ioremap_resource] ++
            [LoadCall.rcar_du_modeset_init] ++
            [LoadCall.drm_vblank_init ((1 <<< env.modeset_num_crtcs) - 1)] ++
            [LoadCall.platform_set_drvdata]) hp rfl
        refine ⟨env.drm_vblank_init, w1,
          [LoadCall.platform_get_resource, LoadCall.devm_ioremap_resource,
            LoadCall.rcar_du_modeset_init,
            LoadCall.drm_vblank_init ((1 <<< env.modeset_num_crtcs) - 1),
            LoadCall.platform_set_drvdata] ++ c1, ?_, hg, hm, ?_⟩
        · simpa [h1, h2, h3] using hd
        · simp [hr]

theorem load_with_probe (cfg : Config) (k : HeaderConsts) (env : LoadEnv) (w : World)
    (pdata : rcar_du_platform_data) (hp : env.pdata = some pdata)
    (hk : env.devm_kzalloc_ok = true) (hwa : cfg.any_workaround = true)
    (hmap : env.ioremap_nocache_ok = true)
    (hst : (rcar_du_load_probe_stores cfg env.product_reg_value &&
      info_is_const cfg env.driver_data) = false) :
    rcar_du_load cfg k env w
      = rcar_du_load_tail env (rcar_du_load_context env pdata w)
          { w with
            rcdu := some (rcar_du_load_context env pdata w)
            dev_private := CtxPtr.rcdu
            globals := w.globals.write env.driver_data
              (rcar_du_load_probe cfg k env.product_reg_value (w.globals.read env.driver_data)) }
          [LoadCall.devm_kzalloc, LoadCall.ioremap_nocache, LoadCall.iounmap] := by
  have hst2 : (rcar_du_load_probe_stores cfg env.product_reg_value &&
      info_is_const cfg (rcar_du_load_context env pdata w).info) = false := hst
  simp only [rcar_du_load, hp, hk, hwa, hmap, hst2]
  simp [rcar_du_load_context]

/-- A probe that executes no store leaves the record as it was. -/
theorem probe_without_store (cfg : Config) (k : HeaderConsts) (r : Nat)
    (info : rcar_du_device_info) (h : rcar_du_load_probe_stores cfg r = false) :
    rcar_du_load_probe cfg k r info = info := by
  simp only [rcar_du_load_probe_stores, Bool.or_eq_false_iff, Bool.and_eq_false_iff,
    decide_eq_false_iff_not] at h
  obtain ⟨h1, h2⟩ := h
  rcases h1 with h1 | h1 <;> simp [rcar_du_load_probe, h1, h2]

/-- Without a workaround symbol the probe is not compiled, so no store can
hit a const record. -/
theorem no_workaround_no_store (cfg : Config) (r : Nat) (hwa : cfg.any_workaround = false) :
    rcar_du_load_probe_stores cfg r = false := by
  simp only [Config.any_workaround, Bool.or_eq_false_iff] at hwa
  simp [rcar_du_load_probe_stores, hwa.1, hwa.2]

/-- The result of a load whose probe stores into a const record is not
defined: with only the data-gap workaround compiled in, this is every load
of an r8a7794 device that maps the product register. -/
theorem load_const_store_undefined (cfg : Config) (k : HeaderConsts) (env : LoadEnv)
    (w : World) (hps : env.pdata.isSome = true) (hk : env.devm_kzalloc_ok = true)
    (hwa : cfg.any_workaround = true) (hmap : env.ioremap_nocache_ok = true)
    (hst : (rcar_du_load_probe_stores cfg env.product_reg_value &&
      info_is_const cfg env.driver_data) = true) :
    rcar_du_load cfg k env w = none := by
  obtain ⟨pdata, hp⟩ := Option.isSome_iff_exists.mp hps
  have hst2 : (rcar_du_load_probe_stores cfg env.product_reg_value &&
      info_is_const cfg (rcar_du_load_context env pdata w).info) = true := hst
  simp only [rcar_du_load, hp, hk, hwa, hmap, hst2]
  simp

theorem load_without_probe (cfg : Config) (k : HeaderConsts) (env : LoadEnv) (w : World)
    (pdata : rcar_du_platform_data) (hp : env.pdata = some pdata)
    (hk : env.devm_kzalloc_ok = true) (hwa : cfg.any_workaround = false) :
    rcar_du_load cfg k env w
      = rcar_du_load_tail env (rcar_du_load_context env pdata w)
          { w with
            rcdu := some (rcar_du_load_context env pdata w)
            dev_private := CtxPtr.rcdu }
          [LoadCall.devm_kzalloc] := by
  simp [rcar_du_load, hp, hk, hwa, rcar_du_load_context]

theorem globals_read_write (g : Globals) (p q : InfoPtr) (v : rcar_du_device_info) :
    (g.write p v).read q = if q = p then v else g.read q := by
  cases p <;> cases q <;> simp [Globals.write, Globals.read]

/-- C3, as stated, fails: loading an r8a7790 device whose product register
reads 0x4510 succeeds and leaves the shared r8a7790 record with period 714
and quirks 5, where the static initialiser had period 0 and quirks 1; the
context holds the address of that record. -/
theorem C3_counterexample :
    (rcar_du_load Config.full HeaderConsts.sample LoadEnv.sample
        (World.boot HeaderConsts.sample Config.full)).map
      (fun x => (x.1, (x.2.1.globals.read InfoPtr.r8a7790).cpu_clk_time_ps,
        (x.2.1.globals.read InfoPtr.r8a7790).quirks, x.2.1.rcdu.map fun c => c.info))
      = some (0, 714, 5, some InfoPtr.r8a7790) ∧
    ((World.boot HeaderConsts.sample Config.full).globals.read InfoPtr.r8a7790).cpu_clk_time_ps
      = 0 ∧
    ((World.boot HeaderConsts.sample Config.full).globals.read InfoPtr.r8a7790).quirks = 1 := by
  decide

/-- C3, amended: when a workaround is compiled in, the record behind
`driver_data` is not declared const, and the probe is reached (platform data
present, context allocated, product register mapped), `rcar_du_load` returns
and has stored the probe result into the shared table record itself: that
record differs from its old value at most in `quirks` and `cpu_clk_time_ps`,
every other record is unchanged, and `rcdu->info` is the address of the table
record, not of a copy. -/
theorem C3_load_patches_table_in_place_amended (cfg : Config) (k : HeaderConsts)
    (env : LoadEnv) (w : World) (pdata : rcar_du_platform_data)
    (hp : env.pdata = some pdata) (hk : env.devm_kzalloc_ok = true)
    (hwa : cfg.any_workaround = true) (hmap : env.ioremap_nocache_ok = true)
    (hmut : info_is_const cfg env.driver_data = false) :
    ∃ ret w1 calls, rcar_du_load cfg k env w = some (ret, w1, calls) ∧
      w1.globals.read env.driver_data
        = rcar_du_load_probe cfg k env.product_reg_value (w.globals.read env.driver_data) ∧
      w1.globals.read env.driver_data
        = { w.globals.read env.driver_data with
            quirks := (w1.globals.read env.driver_data).quirks
            cpu_clk_time_ps := (w1.globals.read env.driver_data).cpu_clk_time_ps } ∧
      (∀ q, q ≠ env.driver_data → w1.globals.read q = w.globals.read q) ∧
      w1.rcdu.map (fun c => c.info) = some env.driver_data := by
  obtain ⟨ret, w1, c1, ht, hg, -, hr⟩ := load_tail_frame env (rcar_du_load_context env pdata w)
    { w with
      rcdu := some (rcar_du_load_context env pdata w)
      dev_private := CtxPtr.rcdu
      globals := w.globals.write env.driver_data
        (rcar_du_load_probe cfg k env.product_reg_value (w.globals.read env.driver_data)) }
    [LoadCall.devm_kzalloc, LoadCall.ioremap_nocache, LoadCall.iounmap] rfl
  refine ⟨ret, w1, _,
    (load_with_probe cfg k env w pdata hp hk hwa hmap (by simp [hmut])).trans ht, ?_, ?_, ?_, hr⟩
  · rw [hg]; simp [globals_read_write]
  · rw [hg]
    simp only [globals_read_write, if_true]
    unfold rcar_du_load_probe
    split_ifs <;> rfl
  · intro q hq
    rw [hg]; simp [globals_read_write, hq]

/-- Instance of amended C3: the successful r8a7790 load with register value
0x4510. -/
theorem C3_load_patches_table_in_place_amended_witness :
    ∃ ret w1 calls,
      rcar_du_load Config.full HeaderConsts.sample LoadEnv.sample
          (World.boot HeaderConsts.sample Config.full) = some (ret, w1, calls) ∧
      (w1.globals.read InfoPtr.r8a7790).cpu_clk_time_ps = 714 ∧
      w1.globals.read InfoPtr.r8a7791 = rcar_du_r8a7791_info HeaderConsts.sample := by
  obtain ⟨ret, w1, calls, h, h1, -, h3, -⟩ :=
    C3_load_patches_table_in_place_amended Config.full HeaderConsts.sample LoadEnv.sample
      (World.boot HeaderConsts.sample Config.full) { num_crtcs := 3, backlight_off := true }
      rfl rfl rfl rfl rfl
  refine ⟨ret, w1, calls, h, ?_, ?_⟩
  · have h1b : w1.globals.read InfoPtr.r8a7790 = _ := h1
    rw [h1b]; decide
  · exact h3 InfoPtr.r8a7791 (by decide)

/-- With neither workaround compiled in, `rcar_du_load` returns and leaves
every descriptor record as it was. -/
theorem load_without_workaround_keeps_table (cfg : Config) (k : HeaderConsts)
    (env : LoadEnv) (w : World) (hwa : cfg.any_workaround = false) :
    ∃ ret w1 calls, rcar_du_load cfg k env w = some (ret, w1, calls) ∧
      w1.globals = w.globals := by
  cases hp : env.pdata with
  | none => exact ⟨-ENODEV, w, [], by simp [rcar_du_load, hp], rfl⟩
  | some pdata =>
    cases hk : env.devm_kzalloc_ok with
    | false =>
      exact ⟨-ENOMEM, w, [LoadCall.devm_kzalloc], by simp [rcar_du_load, hp, hk], rfl⟩
    | true =>
      obtain ⟨ret, w1, c1, ht, hg, -, -⟩ := load_tail_frame env
        (rcar_du_load_context env pdata w)
        { w with rcdu := some (rcar_du_load_context env pdata w), dev_private := CtxPtr.rcdu }
        [LoadCall.devm_kzalloc] rfl
      exact ⟨ret, w1, _, (load_without_probe cfg k env w pdata hp hk hwa).trans ht, hg⟩

theorem is_err_ne_zero (p : Int) (h : IS_ERR p = true) : p ≠ 0 := by
  simp [IS_ERR] at h
  omega

theorem load_tail_mmio_fails (env : LoadEnv) (c : rcar_du_device) (w : World)
    (calls : List LoadCall) (h1 : IS_ERR env.devm_ioremap_resource = true) :
    rcar_du_load_tail env c w calls
      = some (env.devm_ioremap_resource,
          { w with rcdu := some { c with mmio := env.devm_ioremap_resource } },
          calls ++ [LoadCall.platform_get_resource, LoadCall.devm_ioremap_resource]) := by
  simp [rcar_du_load_tail, h1]

theorem load_tail_modeset_fails (env : LoadEnv) (c : rcar_du_device) (w : World)
    (calls : List LoadCall) (hp : w.dev_private = CtxPtr.rcdu)
    (h1 : IS_ERR env.devm_ioremap_resource = false) (h2 : env.rcar_du_modeset_init < 0) :
    ∃ w1 c1, rcar_du_load_tail env c w calls
        = some (env.rcar_du_modeset_init, w1,
            calls ++ [LoadCall.platform_get_resource, LoadCall.devm_ioremap_resource,
              LoadCall.rcar_du_modeset_init] ++ c1) ∧
      w1.product_reg_maps = w.product_reg_maps ∧ w1.dev_private = CtxPtr.NULL ∧
      w1.irq_enabled = 0 ∧ LoadCall.drm_mode_config_cleanup ∈ c1 ∧
      ∀ x ∈ c1, x.stage = none := by
  obtain ⟨w1, c1, hd, -, hm, -, hs, hne, -⟩ := load_done_spec env.rcar_du_modeset_init
    { w with rcdu := some { c with mmio := env.devm_ioremap_resource,
                                   num_crtcs := env.modeset_num_crtcs,
                                   fbdev := env.modeset_fbdev } } _
    (calls ++ [LoadCall.platform_get_resource, LoadCall.devm_ioremap_resource] ++
      [LoadCall.rcar_du_modeset_init]) hp rfl
  obtain ⟨hn1, hn2, hn3⟩ := hne (by omega)
  refine ⟨w1, c1, ?_, hm, hn1, hn2, hn3, hs⟩
  simpa [rcar_du_load_tail, h1, h2] using hd

theorem load_tail_vblank_fails (env : LoadEnv) (c : rcar_du_device) (w : World)
    (calls : List LoadCall) (hp : w.dev_private = CtxPtr.rcdu)
    (h1 : IS_ERR env.devm_ioremap_resource = false) (h2 : 0 ≤ env.rcar_du_modeset_init)
    (h3 : env.drm_vblank_init < 0) :
    ∃ w1 c1, rcar_du_load_tail env c w calls
        = some (env.drm_vblank_init, w1,
            calls ++ [LoadCall.platform_get_resource, LoadCall.devm_ioremap_resource,
              LoadCall.rcar_du_modeset_init,
              LoadCall.drm_vblank_init ((1 <<< env.modeset_num_crtcs) - 1)] ++ c1) ∧
      w1.product_reg_maps = w.product_reg_maps ∧ w1.dev_private = CtxPtr.NULL ∧
      w1.irq_enabled = 0 ∧ LoadCall.drm_mode_config_cleanup ∈ c1 ∧
      ∀ x ∈ c1, x.stage = none := by
  obtain ⟨w1, c1, hd, -, hm, -, hs, hne, -⟩ := load_done_spec env.drm_vblank_init
    { w with rcdu := some { c with mmio := env.devm_ioremap_resource,
                                   num_crtcs := env.modeset_num_crtcs,
                                   fbdev := env.modeset_fbdev } } _
    (calls ++ [LoadCall.platform_get_resource, LoadCall.devm_ioremap_resource] ++
      [LoadCall.rcar_du_modeset_init] ++
      [LoadCall.drm_vblank_init ((1 <<< env.modeset_num_crtcs) - 1)]) hp rfl
  obtain ⟨hn1, hn2, hn3⟩ := hne (by omega)
  refine ⟨w1, c1, ?_, hm, hn1, hn2, hn3, hs⟩
  have h2b : ¬ env.rcar_du_modeset_init < 0 := by omega
  simpa [rcar_du_load_tail, h1, h2b, h3] using hd

/-- Every load, with or without the probe, reaches the common tail from a
state in which `dev_private` is set, the count of live product-register
mappings is what it was, and `irq_enabled` is untouched. -/
theorem load_reaches_tail (cfg : Config) (k : HeaderConsts) (env : LoadEnv) (w : World)
    (pdata : rcar_du_platform_data) (hp : env.pdata = some pdata)
    (hk : env.devm_kzalloc_ok = true)
    (hmap : cfg.any_workaround = true → env.ioremap_nocache_ok = true)
    (hst : (rcar_du_load_probe_stores cfg env.product_reg_value &&
      info_is_const cfg env.driver_data) = false) :
    ∃ w0 calls0, rcar_du_load cfg k env w
        = rcar_du_load_tail env (rcar_du_load_context env pdata w) w0 calls0 ∧
      w0.dev_private = CtxPtr.rcdu ∧ w0.product_reg_maps = w.product_reg_maps ∧
      w0.irq_enabled = w.irq_enabled ∧
      (∀ x ∈ calls0, x.is_teardown = false ∧
        ∀ t, x.stage = some t → t = LoadStage.product_register_mapping) := by
  cases hwa : cfg.any_workaround with
  | true =>
    refine ⟨_, _, load_with_probe cfg k env w pdata hp hk hwa (hmap hwa) hst,
      rfl, rfl, rfl, ?_⟩
    simp [LoadCall.is_teardown, LoadCall.stage]
  | false =>
    refine ⟨_, _, load_without_probe cfg k env w pdata hp hk hwa, rfl, rfl, rfl, ?_⟩
    simp [LoadCall.is_teardown, LoadCall.stage]

/-- C9, as stated, fails at the first two stages. When the mapping of the
product register fails, `rcar_du_load` returns -ENOMEM after two calls and
`dev->dev_private` still holds the context; the same holds, with the error
of the mapping, when the mapping of the device registers fails. -/
theorem C9_counterexample :
    stage_fails Config.full { LoadEnv.sample with ioremap_nocache_ok := false }
      LoadStage.product_register_mapping ∧
    (rcar_du_load Config.full HeaderConsts.sample
        { LoadEnv.sample with ioremap_nocache_ok := false }
        (World.boot HeaderConsts.sample Config.full)).map
      (fun x => (x.1, x.2.1.dev_private, x.2.2))
      = some (-12, CtxPtr.rcdu, [LoadCall.devm_kzalloc, LoadCall.ioremap_nocache]) ∧
    stage_fails Config.full { LoadEnv.sample with devm_ioremap_resource := -12 }
      LoadStage.device_register_mapping ∧
    (rcar_du_load Config.full HeaderConsts.sample
        { LoadEnv.sample with devm_ioremap_resource := -12 }
        (World.boot HeaderConsts.sample Config.full)).map
      (fun x => (x.1, x.2.1.dev_private, x.2.2))
      = some (-12, CtxPtr.rcdu,
          [LoadCall.devm_kzalloc, LoadCall.ioremap_nocache, LoadCall.iounmap,
            LoadCall.platform_get_resource, LoadCall.devm_ioremap_resource]) := by
  refine ⟨⟨rfl, rfl, rfl, rfl⟩, by decide, ⟨rfl, rfl, fun _ => rfl, by decide⟩, by decide⟩

/-- C9, amended: if a load stage is reached and fails, and (for a stage after
the mapping of the product register) the probe made no store into a record
declared const, `rcar_du_load` returns a non-zero value, makes no call of a
later stage, and leaves as many product-register mappings as it found. When
the failing stage is the modeset or the vblank step, `rcar_du_unload` has
run: `dev_private` is NULL and `irq_enabled` is 0. When it is the mapping of
the product register or of the device registers, the function returns at
once without any teardown call: `dev_private` still holds the context and
`irq_enabled` is as before. -/
theorem C9_load_failure_amended (cfg : Config) (k : HeaderConsts) (env : LoadEnv)
    (w : World) (st : LoadStage) (h : stage_fails cfg env st)
    (hstore : st ≠ LoadStage.product_register_mapping →
      (rcar_du_load_probe_stores cfg env.product_reg_value &&
        info_is_const cfg env.driver_data) = false) :
    ∃ ret w1 calls, rcar_du_load cfg k env w = some (ret, w1, calls) ∧ ret ≠ 0 ∧
      (∀ x ∈ calls, ∀ t, x.stage = some t → t.rank ≤ st.rank) ∧
      w1.product_reg_maps = w.product_reg_maps ∧
      (st.rank ≤ LoadStage.device_register_mapping.rank →
          w1.dev_private = CtxPtr.rcdu ∧ w1.irq_enabled = w.irq_enabled ∧
            ∀ x ∈ calls, x.is_teardown = false) ∧
      (LoadStage.modeset_init.rank ≤ st.rank →
          w1.dev_private = CtxPtr.NULL ∧ w1.irq_enabled = 0 ∧
            LoadCall.drm_mode_config_cleanup ∈ calls) := by
  obtain ⟨hps, hk, hst⟩ := h
  obtain ⟨pdata, hp⟩ := Option.isSome_iff_exists.mp hps
  cases st with
  | product_register_mapping =>
    obtain ⟨hwa, hmap⟩ := hst
    refine ⟨-ENOMEM,
      { w with rcdu := some (rcar_du_load_context env pdata w), dev_private := CtxPtr.rcdu },
      [LoadCall.devm_kzalloc, LoadCall.ioremap_nocache],
      ?_, by decide, ?_, rfl, fun _ => ⟨rfl, rfl, ?_⟩, fun hr => absurd hr (by decide)⟩
    · simp [rcar_du_load, hp, hk, hwa, hmap, rcar_du_load_context]
    · simp [LoadCall.stage]
    · simp [LoadCall.is_teardown]
  | device_register_mapping =>
    obtain ⟨hmap, h1⟩ := hst
    obtain ⟨w0, c0, hl, hd, hm, hi, hc⟩ := load_reaches_tail cfg k env w pdata hp hk hmap
      (hstore (by decide))
    refine ⟨_, _, _, hl.trans (load_tail_mmio_fails env _ w0 c0 h1), is_err_ne_zero _ h1,
      ?_, hm, fun _ => ⟨hd, hi, ?_⟩, fun hr => absurd hr (by decide)⟩
    · intro x hx t ht
      rcases List.mem_append.mp hx with hx | hx
      · rw [(hc x hx).2 t ht]; decide
      · simp at hx
        rcases hx with rfl | rfl <;> simp [LoadCall.stage] at ht
        subst ht; decide
    · intro x hx
      rcases List.mem_append.mp hx with hx | hx
      · exact (hc x hx).1
      · simp at hx
        rcases hx with rfl | rfl <;> rfl
  | modeset_init =>
    obtain ⟨hmap, h1, h2⟩ := hst
    obtain ⟨w0, c0, hl, hd, hm, -, hc⟩ := load_reaches_tail cfg k env w pdata hp hk hmap
      (hstore (by decide))
    obtain ⟨w1, c1, ht, hm1, hn1, hn2, hn3, hs⟩ :=
      load_tail_modeset_fails env (rcar_du_load_context env pdata w) w0 c0 hd h1 h2
    refine ⟨_, w1, _, hl.trans ht, by omega, ?_, hm1.trans hm,
      fun hr => absurd hr (by decide), fun _ => ⟨hn1, hn2, ?_⟩⟩
    · intro x hx t hxt
      rcases List.mem_append.mp hx with hx | hx
      · rcases List.mem_append.mp hx with hx | hx
        · rw [(hc x hx).2 t hxt]; decide
        · simp at hx
          rcases hx with rfl | rfl | rfl <;> simp [LoadCall.stage] at hxt <;>
            (subst hxt; decide)
      · rw [hs x hx] at hxt
        exact Option.noConfusion hxt
    · exact List.mem_append_right _ hn3
  | vblank_init =>
    obtain ⟨hmap, h1, h2, h3⟩ := hst
    obtain ⟨w0, c0, hl, hd, hm, -, hc⟩ := load_reaches_tail cfg k env w pdata hp hk hmap
      (hstore (by decide))
    obtain ⟨w1, c1, ht, hm1, hn1, hn2, hn3, hs⟩ :=
      load_tail_vblank_fails env (rcar_du_load_context env pdata w) w0 c0 hd h1 h2 h3
    refine ⟨_, w1, _, hl.trans ht, by omega, ?_, hm1.trans hm,
      fun hr => absurd hr (by decide), fun _ => ⟨hn1, hn2, ?_⟩⟩
    · intro x hx t _
      cases t <;> decide
    · exact List.mem_append_right _ hn3

/-- Instance of amended C9: the modeset step fails with -22 on the r8a7790
load, and the mapping of the product register fails. -/
theorem C9_load_failure_amended_witness :
    (∃ ret w1 calls,
      rcar_du_load Config.full HeaderConsts.sample
          { LoadEnv.sample with rcar_du_modeset_init := -22 }
          (World.boot HeaderConsts.sample Config.full) = some (ret, w1, calls) ∧
        ret ≠ 0 ∧ w1.dev_private = CtxPtr.NULL ∧ w1.irq_enabled = 0) ∧
    (∃ ret w1 calls,
      rcar_du_load Config.full HeaderConsts.sample
          { LoadEnv.sample with ioremap_nocache_ok := false }
          (World.boot HeaderConsts.sample Config.full) = some (ret, w1, calls) ∧
        ret ≠ 0 ∧ w1.dev_private = CtxPtr.rcdu) := by
  constructor
  · obtain ⟨ret, w1, calls, h, hne, -, -, -, hpost⟩ :=
      C9_load_failure_amended Config.full HeaderConsts.sample
        { LoadEnv.sample with rcar_du_modeset_init := -22 }
        (World.boot HeaderConsts.sample Config.full) LoadStage.modeset_init
        ⟨rfl, rfl, fun _ => rfl, by decide, by decide⟩ (fun _ => rfl)
    exact ⟨ret, w1, calls, h, hne, (hpost (by decide)).1, (hpost (by decide)).2.1⟩
  · obtain ⟨ret, w1, calls, h, hne, -, -, hpre, -⟩ :=
      C9_load_failure_amended Config.full HeaderConsts.sample
        { LoadEnv.sample with ioremap_nocache_ok := false }
        (World.boot HeaderConsts.sample Config.full) LoadStage.product_register_mapping
        ⟨rfl, rfl, rfl, rfl⟩ (fun hne => absurd rfl hne)
    exact ⟨ret, w1, calls, h, hne, (hpre (by decide)).1⟩

/-! ## Claims about the power sequencer -/

theorem foldl_append_singleton {α β : Type} (g : α → β) (l : List α) (init : List β) :
    l.foldl (fun acc x => acc ++ [g x]) init = init ++ l.map g := by
  rw [foldl_append_eq_flatMap (fun x => [g x]) l init, List.map_eq_flatMap]

/-- Closed form of the suspend call sequence with LVDS and ADV7511 support. -/
theorem pm_suspend_calls (cfg : Config) (rcdu : PmDevice)
    (hadv : cfg.CONFIG_DRM_ADV7511 = true) (hlvds : cfg.CONFIG_DRM_RCAR_LVDS = true) :
    rcar_du_pm_suspend cfg rcdu = (0,
      [PmCall.drm_kms_helper_poll_disable]
      ++ (rcdu.encoder_list.enum.filter fun e =>
            decide (e.2.encoder_type = DRM_MODE_ENCODER_TMDS ∧ e.2.dpms = true)).map
          (fun e => PmCall.dpms e.1 DRM_MODE_DPMS_OFF)
      ++ ((List.range rcdu.info_num_lvds).filter fun i => (rcdu.lvds i).isSome).map
          (fun i => PmCall.rcar_du_lvdsenc_stop_suspend (rcdu.lvds i))
      ++ (List.range rcdu.pdata_num_crtcs).map PmCall.rcar_du_crtc_suspend) := by
  unfold rcar_du_pm_suspend
  simp only [hadv, hlvds, if_true]
  rw [foldl_cond_append
        (fun e : Nat × drm_encoder => e.2.encoder_type = DRM_MODE_ENCODER_TMDS ∧ e.2.dpms = true)
        (fun e => PmCall.dpms e.1 DRM_MODE_DPMS_OFF),
      foldl_cond_append (fun i : Nat => (rcdu.lvds i).isSome = true)
        (fun i => PmCall.rcar_du_lvdsenc_stop_suspend (rcdu.lvds i)),
      foldl_append_singleton]
  simp

/-- Closed form of the resume call sequence with LVDS and ADV7511 support. -/
theorem pm_resume_calls (cfg : Config) (rcdu : PmDevice)
    (hadv : cfg.CONFIG_DRM_ADV7511 = true) (hlvds : cfg.CONFIG_DRM_RCAR_LVDS = true) :
    rcar_du_pm_resume cfg rcdu = (0,
      (List.range rcdu.pdata_num_crtcs).map PmCall.rcar_du_crtc_resume
      ++ ((List.range rcdu.pdata_num_crtcs).filter fun i =>
            decide ((rcdu.crtcs i).lvds_ch ≥ 0)).map
          (fun i => PmCall.rcar_du_lvdsenc_start (rcdu.lvds (rcdu.crtcs i).lvds_ch.toNat) i)
      ++ (rcdu.encoder_list.enum.filter fun e =>
            decide (e.2.encoder_type = DRM_MODE_ENCODER_TMDS ∧ e.2.dpms = true)).map
          (fun e => PmCall.dpms e.1 DRM_MODE_DPMS_ON)
      ++ [PmCall.drm_kms_helper_poll_enable]) := by
  unfold rcar_du_pm_resume
  simp only [hadv, hlvds, if_true]
  rw [foldl_append_singleton,
      foldl_cond_append (fun i : Nat => (rcdu.crtcs i).lvds_ch ≥ 0)
        (fun i => PmCall.rcar_du_lvdsenc_start (rcdu.lvds (rcdu.crtcs i).lvds_ch.toNat) i),
      foldl_cond_append
        (fun e : Nat × drm_encoder => e.2.encoder_type = DRM_MODE_ENCODER_TMDS ∧ e.2.dpms = true)
        (fun e => PmCall.dpms e.1 DRM_MODE_DPMS_ON)]
  simp

/-- C7: with LVDS and ADV7511 support, `rcar_du_pm_suspend` returns 0 and its
calls are, in this order: one polling-disable call; a DPMS-OFF call for each
encoder of the list that is of kind TMDS and has a dpms operation, and for
no other encoder; a stop_suspend call for each non-NULL LVDS slot below
`num_lvds`; a suspend call for each CRTC index below the CRTC count. No call
of a later stage comes before a call of an earlier stage. -/
theorem C7_suspend_call_sequence (cfg : Config) (rcdu : PmDevice)
    (hadv : cfg.CONFIG_DRM_ADV7511 = true) (hlvds : cfg.CONFIG_DRM_RCAR_LVDS = true) :
    (rcar_du_pm_suspend cfg rcdu).1 = 0 ∧
    (rcar_du_pm_suspend cfg rcdu).2 =
      [PmCall.drm_kms_helper_poll_disable]
      ++ (rcdu.encoder_list.enum.filter fun e =>
            decide (e.2.encoder_type = DRM_MODE_ENCODER_TMDS ∧ e.2.dpms = true)).map
          (fun e => PmCall.dpms e.1 DRM_MODE_DPMS_OFF)
      ++ ((List.range rcdu.info_num_lvds).filter fun i => (rcdu.lvds i).isSome).map
          (fun i => PmCall.rcar_du_lvdsenc_stop_suspend (rcdu.lvds i))
      ++ (List.range rcdu.pdata_num_crtcs).map PmCall.rcar_du_crtc_suspend ∧
    (rcar_du_pm_suspend cfg rcdu).2.Pairwise
      (fun a b => a.stage.suspend_rank ≤ b.stage.suspend_rank) ∧
    (∀ i m, PmCall.dpms i m ∈ (rcar_du_pm_suspend cfg rcdu).2 ↔
      m = DRM_MODE_DPMS_OFF ∧ ∃ e, rcdu.encoder_list[i]? = some e ∧
        e.encoder_type = DRM_MODE_ENCODER_TMDS ∧ e.dpms = true) ∧
    (∀ u, PmCall.rcar_du_lvdsenc_stop_suspend u ∈ (rcar_du_pm_suspend cfg rcdu).2 ↔
      ∃ i, i < rcdu.info_num_lvds ∧ rcdu.lvds i = u ∧ u.isSome = true) ∧
    (∀ c, PmCall.rcar_du_crtc_suspend c ∈ (rcar_du_pm_suspend cfg rcdu).2 ↔
      c < rcdu.pdata_num_crtcs) := by
  rw [pm_suspend_calls cfg rcdu hadv hlvds]
  refine ⟨rfl, rfl, ?_, ?_, ?_, ?_⟩
  · simp only [List.pairwise_append, List.pairwise_map, List.mem_append, List.mem_map,
      List.mem_singleton]
    refine ⟨⟨⟨List.pairwise_singleton _ _, List.pairwise_of_forall ?_, ?_⟩,
      List.pairwise_of_forall ?_, ?_⟩, List.pairwise_of_forall ?_, ?_⟩
    · intro x y; exact Nat.le_refl _
    · rintro a rfl b ⟨e, -, rfl⟩; simp [PmCall.stage, PmStage.suspend_rank]
    · intro x y; exact Nat.le_refl _
    · rintro a (rfl | ⟨e, -, rfl⟩) b ⟨i, -, rfl⟩ <;>
        simp [PmCall.stage, PmStage.suspend_rank]
    · intro x y; exact Nat.le_refl _
    · rintro a ((rfl | ⟨e, -, rfl⟩) | ⟨i, -, rfl⟩) b ⟨c, -, rfl⟩ <;>
        simp [PmCall.stage, PmStage.suspend_rank]
  · intro i m
    simp only [List.mem_append, List.mem_map, List.mem_filter, List.mem_singleton,
      List.mem_enum_iff_getElem?, decide_eq_true_eq]
    constructor
    · rintro (((h | ⟨e, ⟨he, ht, hd⟩, heq⟩) | ⟨j, -, h⟩) | ⟨j, -, h⟩)
      · exact PmCall.noConfusion h
      · injection heq with h1 h2
        subst h1 h2
        exact ⟨rfl, e.2, he, ht, hd⟩
      · exact PmCall.noConfusion h
      · exact PmCall.noConfusion h
    · rintro ⟨rfl, e, he, ht, hd⟩
      exact Or.inl (Or.inl (Or.inr ⟨(i, e), ⟨he, ht, hd⟩, rfl⟩))
  · intro u
    simp only [List.mem_append, List.mem_map, List.mem_filter, List.mem_singleton,
      List.mem_range]
    constructor
    · rintro (((h | ⟨e, -, h⟩) | ⟨j, ⟨hj, hs⟩, h⟩) | ⟨j, -, h⟩)
      · exact PmCall.noConfusion h
      · exact PmCall.noConfusion h
      · injection h with h1
        subst h1
        exact ⟨j, hj, rfl, hs⟩
      · exact PmCall.noConfusion h
    · rintro ⟨j, hj, rfl, hs⟩
      exact Or.inl (Or.inr ⟨j, ⟨hj, hs⟩, rfl⟩)
  · intro c
    simp only [List.mem_append, List.mem_map, List.mem_filter, List.mem_singleton,
      List.mem_range]
    constructor
    · rintro (((h | ⟨e, -, h⟩) | ⟨j, -, h⟩) | ⟨j, hj, h⟩)
      · exact PmCall.noConfusion h
      · exact PmCall.noConfusion h
      · exact PmCall.noConfusion h
      · injection h with h1
        subst h1
        exact hj
    · intro hc
      exact Or.inr ⟨c, hc, rfl⟩

/-- Instance of C7: the suspend calls of the sample device. -/
theorem C7_suspend_call_sequence_witness :
    (rcar_du_pm_suspend Config.full PmDevice.sample).1 = 0 ∧
    (rcar_du_pm_suspend Config.full PmDevice.sample).2.Pairwise
      (fun a b => a.stage.suspend_rank ≤ b.stage.suspend_rank) ∧
    (rcar_du_pm_suspend Config.full PmDevice.sample).2
      = [PmCall.drm_kms_helper_poll_disable, PmCall.dpms 0 DpmsMode.DRM_MODE_DPMS_OFF,
          PmCall.rcar_du_lvdsenc_stop_suspend (some 0), PmCall.rcar_du_crtc_suspend 0] :=
  ⟨(C7_suspend_call_sequence Config.full PmDevice.sample rfl rfl).1,
   (C7_suspend_call_sequence Config.full PmDevice.sample rfl rfl).2.2.1,
   by decide⟩

theorem getElem?_map_range_append {β : Type} (f : Nat → β) (n : Nat) (rest : List β)
    (i : Nat) (hi : i < n) : ((List.range n).map f ++ rest)[i]? = some (f i) := by
  rw [List.getElem?_append_left (by simpa using hi), List.getElem?_map,
    List.getElem?_range hi]
  rfl

/-- C8, as stated, fails in its last clause: on the sample device the stage
order of resume is exactly the reverse of the stage order of suspend. -/
theorem C8_counterexample :
    (rcar_du_pm_suspend Config.full PmDevice.sample).2
      = [PmCall.drm_kms_helper_poll_disable, PmCall.dpms 0 DpmsMode.DRM_MODE_DPMS_OFF,
          PmCall.rcar_du_lvdsenc_stop_suspend (some 0), PmCall.rcar_du_crtc_suspend 0] ∧
    (rcar_du_pm_resume Config.full PmDevice.sample).2
      = [PmCall.rcar_du_crtc_resume 0, PmCall.rcar_du_lvdsenc_start (some 0) 0,
          PmCall.dpms 0 DpmsMode.DRM_MODE_DPMS_ON, PmCall.drm_kms_helper_poll_enable] ∧
    (rcar_du_pm_resume Config.full PmDevice.sample).2.map PmCall.stage
      = ((rcar_du_pm_suspend Config.full PmDevice.sample).2.map PmCall.stage).reverse := by
  decide

/-- C8, amended: with LVDS and ADV7511 support, `rcar_du_pm_resume` returns 0
and its calls are, in this order: a resume call for each CRTC index below
the CRTC count; an LVDS start call for each such CRTC with `lvds_ch >= 0`,
passing the slot `rcdu->lvds[lvds_ch]` and that CRTC; a DPMS-ON call for each
TMDS encoder that has a dpms operation; one polling-enable call. Every LVDS
start comes strictly after the resume call of the CRTC it is given. The
stages come in the reverse of the suspend order (CRTCs, LVDS units, bridge
encoders, polling). -/
theorem C8_resume_call_sequence_amended (cfg : Config) (rcdu : PmDevice)
    (hadv : cfg.CONFIG_DRM_ADV7511 = true) (hlvds : cfg.CONFIG_DRM_RCAR_LVDS = true) :
    (rcar_du_pm_resume cfg rcdu).1 = 0 ∧
    (rcar_du_pm_resume cfg rcdu).2 =
      (List.range rcdu.pdata_num_crtcs).map PmCall.rcar_du_crtc_resume
      ++ ((List.range rcdu.pdata_num_crtcs).filter fun i =>
            decide ((rcdu.crtcs i).lvds_ch ≥ 0)).map
          (fun i => PmCall.rcar_du_lvdsenc_start (rcdu.lvds (rcdu.crtcs i).lvds_ch.toNat) i)
      ++ (rcdu.encoder_list.enum.filter fun e =>
            decide (e.2.encoder_type = DRM_MODE_ENCODER_TMDS ∧ e.2.dpms = true)).map
          (fun e => PmCall.dpms e.1 DRM_MODE_DPMS_ON)
      ++ [PmCall.drm_kms_helper_poll_enable] ∧
    (∀ j u c, (rcar_du_pm_resume cfg rcdu).2[j]? = some (PmCall.rcar_du_lvdsenc_start u c) →
      ∃ i : Nat, i < j ∧
        (rcar_du_pm_resume cfg rcdu).2[i]? = some (PmCall.rcar_du_crtc_resume c)) ∧
    (rcar_du_pm_resume cfg rcdu).2.Pairwise
      (fun a b => b.stage.suspend_rank ≤ a.stage.suspend_rank) := by
  rw [pm_resume_calls cfg rcdu hadv hlvds]
  refine ⟨rfl, rfl, ?_, ?_⟩
  · intro j u c hj
    simp only [List.append_assoc] at hj ⊢
    have hn : rcdu.pdata_num_crtcs ≤ j := by
      by_contra hlt
      rw [getElem?_map_range_append _ _ _ j (Nat.lt_of_not_le hlt)] at hj
      exact PmCall.noConfusion (Option.some.inj hj)
    have hmem := List.mem_iff_getElem?.mpr ⟨j, hj⟩
    have hc : c < rcdu.pdata_num_crtcs := by
      simp only [List.mem_append, List.mem_map, List.mem_filter, List.mem_singleton,
        List.mem_range] at hmem
      rcases hmem with ⟨i, -, h⟩ | ⟨i, ⟨hi, -⟩, h⟩ | ⟨e, -, h⟩ | h
      · exact PmCall.noConfusion h
      · injection h with h1 h2
        subst h2
        exact hi
      · exact PmCall.noConfusion h
      · exact PmCall.noConfusion h
    exact ⟨c, Nat.lt_of_lt_of_le hc hn, getElem?_map_range_append _ _ _ c hc⟩
  · simp only [List.pairwise_append, List.pairwise_map, List.mem_append, List.mem_map,
      List.mem_singleton]
    refine ⟨⟨⟨List.pairwise_of_forall ?_, List.pairwise_of_forall ?_, ?_⟩,
      List.pairwise_of_forall ?_, ?_⟩, List.pairwise_singleton _ _, ?_⟩
    · intro x y; exact Nat.le_refl _
    · intro x y; exact Nat.le_refl _
    · rintro a ⟨c, -, rfl⟩ b ⟨i, -, rfl⟩; simp [PmCall.stage, PmStage.suspend_rank]
    · intro x y; exact Nat.le_refl _
    · rintro a (⟨c, -, rfl⟩ | ⟨i, -, rfl⟩) b ⟨e, -, rfl⟩ <;>
        simp [PmCall.stage, PmStage.suspend_rank]
    · rintro a ((⟨c, -, rfl⟩ | ⟨i, -, rfl⟩) | ⟨e, -, rfl⟩) b rfl <;>
        simp [PmCall.stage, PmStage.suspend_rank]

/-- Instance of amended C8: on the sample device the LVDS start at position 1
is preceded by the resume of CRTC 0. -/
theorem C8_resume_call_sequence_amended_witness :
    (rcar_du_pm_resume Config.full PmDevice.sample).1 = 0 ∧
    ∃ i : Nat, i < 1 ∧
      (rcar_du_pm_resume Config.full PmDevice.sample).2[i]?
        = some (PmCall.rcar_du_crtc_resume 0) :=
  ⟨(C8_resume_call_sequence_amended Config.full PmDevice.sample rfl rfl).1,
   (C8_resume_call_sequence_amended Config.full PmDevice.sample rfl rfl).2.2.1 1 (some 0) 0
     (by decide)⟩

/-- C10 evaluated on a device that meets the data-model invariant and whose
LVDS slot 0 holds NULL: resume passes the NULL slot to the LVDS start
operation, whereas suspend, which tests the slot, makes no LVDS call. -/
theorem C10_resume_starts_absent_slot :
    PmDevice.absent_slot.lvds_ch_in_range ∧
    PmDevice.absent_slot.lvds 0 = none ∧
    (rcar_du_pm_resume Config.full PmDevice.absent_slot).2
      = [PmCall.rcar_du_crtc_resume 0, PmCall.rcar_du_lvdsenc_start none 0,
          PmCall.drm_kms_helper_poll_enable] ∧
    (rcar_du_pm_suspend Config.full PmDevice.absent_slot).2
      = [PmCall.drm_kms_helper_poll_disable, PmCall.rcar_du_crtc_suspend 0] := by
  refine ⟨?_, rfl, by decide, by decide⟩
  intro i hi _
  have h0 : i = 0 := by
    have : i < 1 := hi
    omega
  subst h0
  decide

end RcarDu
